import Mathlib

/-!
Shallow embedding of the tool-calling agent loop of
`src/3-search-handbook.py` (the "core" of the WebConnectedAgent
repository, per its specification).

External collaborators are modelled as oracle fields of an `Env`:
the Groq chat-completion endpoint (`Env.complete`), the JSON parser
`json.loads` (`Env.parseJson`, `none` = `json.JSONDecodeError`), and
the state of the backing handbook file (`Env.fs`).  The agent function
`ask_agent` is translated line by line from the source; in addition to
its result (`Except` models Python exception propagation) it returns
the list of completion requests it issued, in order, so that claims
about "the conversation sent in the final completion request" are
statable.
-/

/-- JSON values, as produced by `json.loads`.  Numbers are modelled as
integers; no numeric datum occurs in the embedded program's own data. -/
inductive Json where
  | null : Json
  | bool (b : Bool) : Json
  | num (n : Int) : Json
  | str (s : String) : Json
  | arr (xs : List Json) : Json
  | obj (kvs : List (String × Json)) : Json

/-- Dictionary lookup on a JSON object (first binding wins; `json.loads`
never produces duplicate keys).  Non-objects have no keys. -/
def Json.lookup : Json → String → Option Json
  | Json.obj kvs, k => (kvs.find? (fun p => p.1 == k)).map Prod.snd
  | _, _ => none

/-- Rendering of a JSON value as a Python `str` argument.  Only the
`str` case ever matters: `search_handbook` ignores its argument, so the
rendering of non-string values is immaterial. -/
def Json.asString : Json → String
  | Json.str s => s
  | _ => ""

/-- Pydantic model `Citation` (src/3-search-handbook.py, lines 23-26).
The source field `section` is a Lean keyword, hence the quoted name. -/
structure Citation where
  text : String
  «section» : String
  deriving DecidableEq, Repr

/-- Pydantic model `HandbookAnswer` (src/3-search-handbook.py, lines 29-32). -/
structure HandbookAnswer where
  answer : String
  citations : List Citation
  deriving DecidableEq, Repr

/-- Validation of `Citation` against a parsed JSON value, as pydantic
`model_validate` does: both fields required and of string type, extra
keys ignored. -/
def Citation.model_validate (j : Json) : Option Citation :=
  match Json.lookup j ("text"), Json.lookup j ("section") with
  | some (Json.str t), some (Json.str s) => some { text := t, «section» := s }
  | _, _ => none

/-- Validation of `HandbookAnswer` against a parsed JSON value
(`HandbookAnswer.model_validate(parsed_data)` in the source): `answer`
must be a string, `citations` a list whose every element validates as a
`Citation`; extra keys ignored; any failure is a validation error. -/
def HandbookAnswer.model_validate (j : Json) : Option HandbookAnswer :=
  match Json.lookup j ("answer"), Json.lookup j ("citations") with
  | some (Json.str a), some (Json.arr cs) =>
      (cs.mapM Citation.model_validate).map (fun cits => { answer := a, citations := cits })
  | _, _ => none

/-- State of the backing handbook file at `HANDBOOK_PATH`:
missing (`not HANDBOOK_PATH.exists()`), present but unreadable
(`read_text` raises, with the exception's text), or readable. -/
inductive FileState where
  | absent : FileState
  | unreadable (errMsg : String) : FileState
  | readable (content : String) : FileState
  deriving DecidableEq, Repr

/-- The tool function `search_handbook` (src/3-search-handbook.py,
lines 42-60).  The `query` parameter is accepted but not used; the
function never raises — failures become error strings. -/
def search_handbook (fs : FileState) (query : String) : String :=
  match fs with
  | FileState.absent => "ERROR: Handbook file not found at expected path."
  | FileState.unreadable e => "ERROR: Could not read handbook file: " ++ e
  | FileState.readable handbook_content => handbook_content

/-- A tool invocation request produced by the model
(`tool_call.function` in the SDK response): a function name and the
arguments as a raw JSON string. -/
structure ToolCallFunction where
  name : String
  arguments : String
  deriving DecidableEq, Repr

/-- A tool invocation request produced by the model (`tool_call`). -/
structure ToolCall where
  id : String
  function : ToolCallFunction
  deriving DecidableEq, Repr

/-- One role-tagged message of the conversation.  The `assistant`
constructor is the SDK message object appended back verbatim in the
tool branch (content plus its tool invocation requests); `tool` carries
`tool_call_id`, `name` and `content` as in lines 135-142.  A `system`
role exists in the message vocabulary but the source never puts one in
a messages list. -/
inductive Message where
  | user (content : String) : Message
  | assistant (content : String) (tool_calls : List ToolCall) : Message
  | tool (tool_call_id : String) (name : String) (content : String) : Message
  | system (content : String) : Message
  deriving DecidableEq, Repr

/-- Role test: is this a system-role message? -/
def Message.isSystemRole : Message → Bool
  | Message.system _ => true
  | _ => false

/-- Static tool metadata, `tools[0]["function"]` in the source. -/
structure ToolFunctionDecl where
  name : String
  description : String
  parameters : Json

/-- Static tool metadata entry, one element of the `tools` list. -/
structure ToolDescriptor where
  type : String
  function : ToolFunctionDecl

/-- The `tools` list handed to the initial completion call
(src/3-search-handbook.py, lines 68-86). -/
def tools : List ToolDescriptor :=
  [{ type := "function",
     function :=
       { name := "search_handbook",
         description := "Retrieve the AI implementation handbook content. Use this when the user asks questions about AI implementation requirements, regulations, or procedures for Dutch government organizations.",
         parameters := Json.obj
           [("type", Json.str ("object")),
            ("properties", Json.obj
              [("query", Json.obj
                [("type", Json.str ("string")),
                 ("description", Json.str ("The user\x27s question or search query."))])]),
            ("required", Json.arr [Json.str ("query")])] } }]

/-- The registry mapping tool names to callable functions,
`AVAILABLE_FUNCTIONS` (src/3-search-handbook.py, lines 90-92).  The
Python dict keys a global function; here the function is closed over
the file state. -/
def AVAILABLE_FUNCTIONS (fs : FileState) : String → Option (String → String) :=
  fun name => if name = "search_handbook" then some (search_handbook fs) else none

/-- The model identifier, line 14 of the source. -/
def MODEL : String := "llama-3.3-70b-versatile"

/-- The system prompt of line 105 (apostrophes written as escapes). -/
def SYSTEM_PROMPT : String :=
  "You are a helpful assistant for Dutch government organizations. You can help answer questions about AI implementation policies and regulations by using the \x27search_handbook\x27 tool. If asked what you can do, simply explain your capabilities without searching the handbook. Your final output MUST be a JSON object conforming to the HandbookAnswer schema."

/-- The f-string system prompt of the final (tool-branch) completion
call, line 152. -/
def FINAL_SYSTEM_PROMPT : String :=
  SYSTEM_PROMPT ++ " Use the retrieved handbook content to answer the question. Provide a clear, comprehensive answer. Include only the most important citations (2-4 maximum) that reference the primary sections where the key information comes from. Each citation should include a brief text excerpt and the section number (e.g., \x272.1\x27, \x273.2\x27). Do not cite every detail - only cite the main sources."

/-- The f-string system prompt of the direct (no-tool) completion call,
line 173. -/
def DIRECT_SYSTEM_PROMPT : String :=
  SYSTEM_PROMPT ++ " Answer directly. Since you did not use the tool, return an empty list for \x27citations\x27."

/-- The `response_format` argument: a format type plus the schema.  The
schema value `HandbookAnswer.model_json_schema()` is opaque data passed
through to the service; it is represented by a tag string. -/
structure ResponseFormat where
  type : String
  schema : String
  deriving DecidableEq, Repr

/-- Opaque representation of `HANDBOOK_ANSWER_SCHEMA` (line 36). -/
def HANDBOOK_ANSWER_SCHEMA : String := "HandbookAnswer.model_json_schema"

/-- One call to `client.chat.completions.create`: each keyword argument
of the source becomes a field, `Option`/`none` marking a keyword that a
given call site does not pass. -/
structure CompletionRequest where
  model : String
  messages : List Message
  tools : Option (List ToolDescriptor)
  tool_choice : Option String
  system_prompt : Option String
  response_format : Option ResponseFormat
  temperature : Option Rat

/-- The message of the first (and only) choice of a completion
response: `choices[0].message`, with `tool_calls` empty when the SDK
reports none. -/
structure CompletionResponse where
  content : String
  tool_calls : List ToolCall
  deriving DecidableEq, Repr

/-- The initial completion request (src/3-search-handbook.py,
lines 107-113): tools attached, free tool choice, no response format. -/
def initialRequest (messages : List Message) : CompletionRequest :=
  { model := MODEL, messages := messages, tools := some tools,
    tool_choice := some ("auto"), system_prompt := some SYSTEM_PROMPT,
    response_format := none, temperature := none }

/-- The final tool-branch completion request (lines 149-158):
schema-constrained, temperature 0, no tools offered. -/
def finalRequest (messages : List Message) : CompletionRequest :=
  { model := MODEL, messages := messages, tools := none,
    tool_choice := none, system_prompt := some FINAL_SYSTEM_PROMPT,
    response_format := some { type := "json_object", schema := HANDBOOK_ANSWER_SCHEMA },
    temperature := some 0 }

/-- The direct no-tool completion request (lines 170-179). -/
def directRequest (messages : List Message) : CompletionRequest :=
  { model := MODEL, messages := messages, tools := none,
    tool_choice := none, system_prompt := some DIRECT_SYSTEM_PROMPT,
    response_format := some { type := "json_object", schema := HANDBOOK_ANSWER_SCHEMA },
    temperature := some 0 }

/-- Exceptions `ask_agent` can raise: a Groq SDK error propagating from
`create` (`upstream`), `json.JSONDecodeError` from `json.loads`
(`jsonDecode`), the `ValueError` of line 144 whose message is
`Unknown function: ` followed by the name (`unknownTool`), the
`TypeError` of a keyword-argument mismatch in `function_to_call(**function_args)`
(`typeError`), and pydantic's `ValidationError` (`schemaValidation`). -/
inductive AgentError where
  | upstream (msg : String) : AgentError
  | jsonDecode : AgentError
  | unknownTool (name : String) : AgentError
  | typeError (name : String) : AgentError
  | schemaValidation : AgentError
  deriving DecidableEq, Repr

/-- The oracle environment: the completion endpoint (which may itself
fail), the JSON parser, and the handbook file state. -/
structure Env where
  complete : CompletionRequest → Except String CompletionResponse
  parseJson : String → Option Json
  fs : FileState

/-- Keyword-argument expansion `function_to_call(**function_args)` for
a function of signature `(query)`: the parsed arguments must be an
object whose key set is exactly `query`, else Python raises `TypeError`. -/
def kwargsQuery : Json → Option Json
  | Json.obj kvs => if kvs.map Prod.fst = [("query" : String)] then (kvs.head?).map Prod.snd else none
  | _ => none

/-- One iteration of the tool-call loop (lines 124-144): parse the
arguments string (`json.loads`, line 126), then check registry
membership (line 128), then call the function and build the tool-role
message (lines 130-142); an unregistered name raises the `ValueError`
of line 144.  Note the parse happens before the membership check. -/
def runToolCall (env : Env) (tool_call : ToolCall) : Except AgentError Message :=
  match env.parseJson tool_call.function.arguments with
  | none => Except.error AgentError.jsonDecode
  | some function_args =>
    match AVAILABLE_FUNCTIONS env.fs tool_call.function.name with
    | some function_to_call =>
      match kwargsQuery function_args with
      | some q =>
          Except.ok (Message.tool tool_call.id tool_call.function.name
            (function_to_call (Json.asString q)))
      | none => Except.error (AgentError.typeError tool_call.function.name)
    | none => Except.error (AgentError.unknownTool tool_call.function.name)

/-- The whole `for tool_call in response_message.tool_calls` loop: the
tool-role messages appended, in order, or the first exception raised. -/
def processToolCalls (env : Env) : List ToolCall → Except AgentError (List Message)
  | [] => Except.ok []
  | tool_call :: rest =>
    match runToolCall env tool_call with
    | Except.error e => Except.error e
    | Except.ok m =>
      match processToolCalls env rest with
      | Except.error e => Except.error e
      | Except.ok ms => Except.ok (m :: ms)

/-- Extraction and validation of a structured completion (lines 161-163
and 180-182): `json.loads(json_string)` then
`HandbookAnswer.model_validate(parsed_data)`. -/
def parseAndValidate (env : Env) (json_string : String) : Except AgentError HandbookAnswer :=
  match env.parseJson json_string with
  | none => Except.error AgentError.jsonDecode
  | some parsed_data =>
    match HandbookAnswer.model_validate parsed_data with
    | some result => Except.ok result
    | none => Except.error AgentError.schemaValidation

/-- The final completion call of the tool branch and its parsing
(lines 149-163), given the accumulated messages. -/
def finalStep (env : Env) (messages : List Message) : Except AgentError HandbookAnswer :=
  match env.complete (finalRequest messages) with
  | Except.error e => Except.error (AgentError.upstream e)
  | Except.ok final_completion => parseAndValidate env final_completion.content

/-- The direct completion call of the no-tool branch and its parsing
(lines 170-182). -/
def directStep (env : Env) (messages : List Message) : Except AgentError HandbookAnswer :=
  match env.complete (directRequest messages) with
  | Except.error e => Except.error (AgentError.upstream e)
  | Except.ok direct_completion => parseAndValidate env direct_completion.content

/-- The agent loop `ask_agent` (src/3-search-handbook.py, lines
100-182).  The Python list mutations `messages.append(...)` are
rendered by consing onto the initial singleton `[user query]`, so in
the tool branch the final conversation is
`user :: assistant(with its tool_calls) :: tool results`.  The second
component is the trace of completion requests issued, in order. -/
def ask_agent (env : Env) (query : String) :
    Except AgentError HandbookAnswer × List CompletionRequest :=
  match env.complete (initialRequest [Message.user query]) with
  | Except.error e => (Except.error (AgentError.upstream e), [initialRequest [Message.user query]])
  | Except.ok response_message =>
    match response_message.tool_calls with
    | tc :: rest =>
      match processToolCalls env (tc :: rest) with
      | Except.error e => (Except.error e, [initialRequest [Message.user query]])
      | Except.ok toolMessages =>
        (finalStep env
            (Message.user query :: Message.assistant response_message.content (tc :: rest) :: toolMessages),
         [initialRequest [Message.user query],
          finalRequest
            (Message.user query :: Message.assistant response_message.content (tc :: rest) :: toolMessages)])
    | [] =>
      (directStep env [Message.user query],
       [initialRequest [Message.user query], directRequest [Message.user query]])

/-!
Concrete oracle environments.  Each fixes a deterministic completion
endpoint and JSON parser so that `ask_agent` becomes a closed
computation; they are used to instantiate the claim theorems and to
exhibit counterexamples.
-/

/-- Parsed arguments object shared by the concrete environments:
the JSON text `ARGS` stands for the object with single key `query`. -/
def argsQueryJson : Json := Json.obj [("query", Json.str ("x"))]

/-- Parsed model output with one citation. -/
def oneCitAnswerJson : Json :=
  Json.obj [("answer", Json.str ("a")),
            ("citations", Json.arr
              [Json.obj [("text", Json.str ("t")), ("section", Json.str ("1.1"))]])]

/-- Parsed model output with two citations. -/
def twoCitAnswerJson : Json :=
  Json.obj [("answer", Json.str ("a")),
            ("citations", Json.arr
              [Json.obj [("text", Json.str ("t1")), ("section", Json.str ("1.1"))],
               Json.obj [("text", Json.str ("t2")), ("section", Json.str ("2.2"))]])]

/-- Parsed model output with an empty citation list. -/
def noCitAnswerJson : Json :=
  Json.obj [("answer", Json.str ("a")), ("citations", Json.arr [])]

/-- The validated value of `oneCitAnswerJson`. -/
def answerOneCit : HandbookAnswer :=
  { answer := "a", citations := [{ text := "t", «section» := "1.1" }] }

/-- The validated value of `twoCitAnswerJson`. -/
def answerTwoCits : HandbookAnswer :=
  { answer := "a",
    citations := [{ text := "t1", «section» := "1.1" }, { text := "t2", «section» := "2.2" }] }

/-- The validated value of `noCitAnswerJson`. -/
def answerNoCits : HandbookAnswer := { answer := "a", citations := [] }

/-- A deterministic `json.loads` oracle mapping a few fixed raw texts
to parsed values and failing on everything else. -/
def parseOracle : String → Option Json := fun s =>
  if s = "ARGS" then some argsQueryJson
  else if s = "ONECIT" then some oneCitAnswerJson
  else if s = "TWOCITS" then some twoCitAnswerJson
  else if s = "NOCITS" then some noCitAnswerJson
  else none

/-- A well-formed invocation of the registered tool. -/
def toolCallX : ToolCall :=
  { id := "call_1", function := { name := "search_handbook", arguments := "ARGS" } }

/-- An invocation of an unregistered tool with parseable arguments. -/
def toolCallUnknown : ToolCall :=
  { id := "call_2", function := { name := "mystery_tool", arguments := "ARGS" } }

/-- An invocation of an unregistered tool whose arguments string is not
valid JSON. -/
def toolCallUnknownBad : ToolCall :=
  { id := "call_3", function := { name := "mystery_tool", arguments := "NOTJSON" } }

/-- Environment taking the no-tool branch whose direct completion
nevertheless reports one citation. -/
def envDirect : Env :=
  { complete := fun req =>
      if req.response_format.isSome then Except.ok { content := "ONECIT", tool_calls := [] }
      else Except.ok { content := "", tool_calls := [] },
    parseJson := parseOracle,
    fs := FileState.absent }

/-- Environment taking the tool branch with a readable handbook and a
final completion reporting two citations. -/
def envToolOk : Env :=
  { complete := fun req =>
      if req.response_format.isSome then Except.ok { content := "TWOCITS", tool_calls := [] }
      else Except.ok { content := "", tool_calls := [toolCallX] },
    parseJson := parseOracle,
    fs := FileState.readable ("HANDBOOK CONTENT") }

/-- Environment taking the tool branch while the handbook file is
absent; the final completion still succeeds with two citations. -/
def envToolAbsent : Env :=
  { complete := fun req =>
      if req.response_format.isSome then Except.ok { content := "TWOCITS", tool_calls := [] }
      else Except.ok { content := "", tool_calls := [toolCallX] },
    parseJson := parseOracle,
    fs := FileState.absent }

/-- Environment taking the tool branch with a readable, non-empty
handbook whose final completion reports no citations at all. -/
def envToolNoCit : Env :=
  { complete := fun req =>
      if req.response_format.isSome then Except.ok { content := "NOCITS", tool_calls := [] }
      else Except.ok { content := "", tool_calls := [toolCallX] },
    parseJson := parseOracle,
    fs := FileState.readable ("HANDBOOK CONTENT") }

/-- Environment whose model invokes an unregistered tool with
arguments that are not valid JSON. -/
def envUnknownBad : Env :=
  { complete := fun req =>
      if req.response_format.isSome then Except.ok { content := "TWOCITS", tool_calls := [] }
      else Except.ok { content := "", tool_calls := [toolCallUnknownBad] },
    parseJson := parseOracle,
    fs := FileState.absent }

/-- Environment whose model invokes an unregistered tool with
parseable arguments. -/
def envUnknownGood : Env :=
  { complete := fun req =>
      if req.response_format.isSome then Except.ok { content := "TWOCITS", tool_calls := [] }
      else Except.ok { content := "", tool_calls := [toolCallUnknown] },
    parseJson := parseOracle,
    fs := FileState.absent }

example : (ask_agent envDirect ("What can you do?")).1 = Except.ok answerOneCit := rfl
example : (ask_agent envToolOk ("q")).1 = Except.ok answerTwoCits := rfl
example : (ask_agent envToolAbsent ("q")).1 = Except.ok answerTwoCits := rfl
example : (ask_agent envToolNoCit ("q")).1 = Except.ok answerNoCits := rfl
example : (ask_agent envUnknownBad ("q")).1 = Except.error AgentError.jsonDecode := rfl
example : (ask_agent envUnknownGood ("q")).1 = Except.error (AgentError.unknownTool ("mystery_tool")) := rfl
example : (ask_agent envUnknownGood ("q")).2 = [initialRequest [Message.user ("q")]] := rfl

/-!
Helper lemmas about the tool-call loop.
-/

/-- A successful tool-call iteration yields a tool-role message tagged
with the invocation's id and name. -/
theorem runToolCall_ok_shape (env : Env) (tc : ToolCall) (m : Message)
    (h : runToolCall env tc = Except.ok m) :
    ∃ text, m = Message.tool tc.id tc.function.name text := by
  unfold runToolCall at h
  cases hp : env.parseJson tc.function.arguments with
  | none => rw [hp] at h; simp at h
  | some function_args =>
    rw [hp] at h
    dsimp only at h
    cases hava : AVAILABLE_FUNCTIONS env.fs tc.function.name with
    | none => rw [hava] at h; simp at h
    | some function_to_call =>
      rw [hava] at h
      dsimp only at h
      cases hk : kwargsQuery function_args with
      | none => rw [hk] at h; simp at h
      | some q =>
        rw [hk] at h
        simp only [Except.ok.injEq] at h
        exact ⟨_, h.symm⟩

/-- A tool-call iteration on an unregistered name never succeeds. -/
theorem runToolCall_unknown_not_ok (env : Env) (tc : ToolCall)
    (hunk : AVAILABLE_FUNCTIONS env.fs tc.function.name = none) (m : Message) :
    runToolCall env tc ≠ Except.ok m := by
  intro h
  unfold runToolCall at h
  cases hp : env.parseJson tc.function.arguments with
  | none => rw [hp] at h; simp at h
  | some function_args => rw [hp, hunk] at h; simp at h

/-- A tool-call iteration whose arguments string does not parse raises
the JSON decode error, whatever the tool name. -/
theorem runToolCall_badArgs (env : Env) (tc : ToolCall)
    (hbad : env.parseJson tc.function.arguments = none) :
    runToolCall env tc = Except.error AgentError.jsonDecode := by
  unfold runToolCall
  rw [hbad]

/-- A tool-call iteration whose arguments parse but whose name is
unregistered raises the unknown-function error. -/
theorem runToolCall_unknown (env : Env) (tc : ToolCall) (args : Json)
    (hargs : env.parseJson tc.function.arguments = some args)
    (hunk : AVAILABLE_FUNCTIONS env.fs tc.function.name = none) :
    runToolCall env tc = Except.error (AgentError.unknownTool tc.function.name) := by
  unfold runToolCall
  rw [hargs, hunk]

/-- The loop produces exactly one tool-result message per invocation. -/
theorem processToolCalls_length (env : Env) :
    ∀ (tcs : List ToolCall) (ms : List Message),
      processToolCalls env tcs = Except.ok ms → ms.length = tcs.length := by
  intro tcs
  induction tcs with
  | nil =>
    intro ms h
    unfold processToolCalls at h
    simp only [Except.ok.injEq] at h
    simp [← h]
  | cons tc rest ih =>
    intro ms h
    unfold processToolCalls at h
    cases hr : runToolCall env tc with
    | error e => rw [hr] at h; simp at h
    | ok m =>
      rw [hr] at h
      cases hg : processToolCalls env rest with
      | error e => rw [hg] at h; simp at h
      | ok ms0 =>
        rw [hg] at h
        simp only [Except.ok.injEq] at h
        subst h
        simp [ih ms0 hg]

/-- The i-th message the loop produces comes from the i-th invocation. -/
theorem processToolCalls_get (env : Env) :
    ∀ (tcs : List ToolCall) (ms : List Message),
      processToolCalls env tcs = Except.ok ms →
      ∀ (i : Nat) (h1 : i < tcs.length) (h2 : i < ms.length),
        runToolCall env (tcs.get ⟨i, h1⟩) = Except.ok (ms.get ⟨i, h2⟩) := by
  intro tcs
  induction tcs with
  | nil =>
    intro ms h i h1 h2
    exact absurd h1 (by simp)
  | cons tc rest ih =>
    intro ms h i h1 h2
    unfold processToolCalls at h
    cases hr : runToolCall env tc with
    | error e => rw [hr] at h; simp at h
    | ok m =>
      rw [hr] at h
      cases hg : processToolCalls env rest with
      | error e => rw [hg] at h; simp at h
      | ok ms0 =>
        rw [hg] at h
        simp only [Except.ok.injEq] at h
        subst h
        cases i with
        | zero => simpa using hr
        | succ n =>
          exact ih ms0 hg n (by simpa using h1) (by simpa using h2)

/-- If some invocation in the list names an unregistered tool, the loop
never completes successfully. -/
theorem processToolCalls_mem_unknown (env : Env) :
    ∀ (tcs : List ToolCall) (tc : ToolCall), tc ∈ tcs →
      AVAILABLE_FUNCTIONS env.fs tc.function.name = none →
      ∀ ms, processToolCalls env tcs ≠ Except.ok ms := by
  intro tcs
  induction tcs with
  | nil =>
    intro tc hmem
    exact absurd hmem (by simp)
  | cons hd tl ih =>
    intro tc hmem hunk ms h
    unfold processToolCalls at h
    cases hr : runToolCall env hd with
    | error e => rw [hr] at h; simp at h
    | ok m =>
      rw [hr] at h
      cases hg : processToolCalls env tl with
      | error e => rw [hg] at h; simp at h
      | ok ms0 =>
        rcases List.mem_cons.mp hmem with heq | htl
        · subst heq
          exact runToolCall_unknown_not_ok env tc hunk m hr
        · exact ih tc htl hunk ms0 hg

/-- Every message the loop produces is a tool-role message (never a
system-role one). -/
theorem processToolCalls_no_system (env : Env) :
    ∀ (tcs : List ToolCall) (ms : List Message),
      processToolCalls env tcs = Except.ok ms →
      ∀ m ∈ ms, Message.isSystemRole m = false := by
  intro tcs
  induction tcs with
  | nil =>
    intro ms h m hm
    unfold processToolCalls at h
    simp only [Except.ok.injEq] at h
    subst h
    exact absurd hm (by simp)
  | cons tc rest ih =>
    intro ms h m hm
    unfold processToolCalls at h
    cases hr : runToolCall env tc with
    | error e => rw [hr] at h; simp at h
    | ok m0 =>
      rw [hr] at h
      cases hg : processToolCalls env rest with
      | error e => rw [hg] at h; simp at h
      | ok ms0 =>
        rw [hg] at h
        simp only [Except.ok.injEq] at h
        subst h
        rcases List.mem_cons.mp hm with heq | htl
        · obtain ⟨text, htext⟩ := runToolCall_ok_shape env tc m0 hr
          rw [heq, htext]
          rfl
        · exact ih ms0 hg m htl

/-!
Branch-reduction lemmas for `ask_agent`.
-/

/-- When the initial completion call fails, the SDK error propagates
and no further request is issued. -/
theorem ask_agent_upstream (env : Env) (q : String) (e : String)
    (hc : env.complete (initialRequest [Message.user q]) = Except.error e) :
    ask_agent env q =
      (Except.error (AgentError.upstream e), [initialRequest [Message.user q]]) := by
  unfold ask_agent
  rw [hc]

/-- Reduction of `ask_agent` in the no-tool branch. -/
theorem ask_agent_direct (env : Env) (q : String) (resp : CompletionResponse)
    (hc : env.complete (initialRequest [Message.user q]) = Except.ok resp)
    (htc : resp.tool_calls = []) :
    ask_agent env q =
      (directStep env [Message.user q],
       [initialRequest [Message.user q], directRequest [Message.user q]]) := by
  unfold ask_agent
  rw [hc]
  dsimp only
  rw [htc]

/-- Reduction of `ask_agent` in the tool branch when some iteration of
the tool-call loop raises: the exception propagates and the final
completion request is never issued. -/
theorem ask_agent_tool_error (env : Env) (q : String) (resp : CompletionResponse)
    (tc : ToolCall) (rest : List ToolCall) (e : AgentError)
    (hc : env.complete (initialRequest [Message.user q]) = Except.ok resp)
    (htc : resp.tool_calls = tc :: rest)
    (hp : processToolCalls env (tc :: rest) = Except.error e) :
    ask_agent env q = (Except.error e, [initialRequest [Message.user q]]) := by
  unfold ask_agent
  rw [hc]
  dsimp only
  rw [htc]
  dsimp only
  rw [hp]

/-- Reduction of `ask_agent` in the tool branch when every tool call
executes: the conversation sent to the final completion call is the
user message, the assistant tool-invocation message, then the
tool-result messages. -/
theorem ask_agent_tool (env : Env) (q : String) (resp : CompletionResponse)
    (tc : ToolCall) (rest : List ToolCall) (ms : List Message)
    (hc : env.complete (initialRequest [Message.user q]) = Except.ok resp)
    (htc : resp.tool_calls = tc :: rest)
    (hp : processToolCalls env (tc :: rest) = Except.ok ms) :
    ask_agent env q =
      (finalStep env (Message.user q :: Message.assistant resp.content (tc :: rest) :: ms),
       [initialRequest [Message.user q],
        finalRequest (Message.user q :: Message.assistant resp.content (tc :: rest) :: ms)]) := by
  unfold ask_agent
  rw [hc]
  dsimp only
  rw [htc]
  dsimp only
  rw [hp]

/-- A structured parse that returns a value went through both a
successful `json.loads` and a successful schema validation. -/
theorem parseAndValidate_ok (env : Env) (s : String) (a : HandbookAnswer)
    (h : parseAndValidate env s = Except.ok a) :
    ∃ j, env.parseJson s = some j ∧ HandbookAnswer.model_validate j = some a := by
  unfold parseAndValidate at h
  cases hj : env.parseJson s with
  | none => rw [hj] at h; simp at h
  | some parsed_data =>
    rw [hj] at h
    dsimp only at h
    cases hv : HandbookAnswer.model_validate parsed_data with
    | none => rw [hv] at h; simp at h
    | some result =>
      rw [hv] at h
      simp only [Except.ok.injEq] at h
      exact ⟨parsed_data, rfl, h ▸ hv⟩

/-- A successful final step exhibits a completion response whose
content parsed and validated to the returned answer. -/
theorem finalStep_ok (env : Env) (msgs : List Message) (a : HandbookAnswer)
    (h : finalStep env msgs = Except.ok a) :
    ∃ r j, env.complete (finalRequest msgs) = Except.ok r ∧
      env.parseJson r.content = some j ∧ HandbookAnswer.model_validate j = some a := by
  unfold finalStep at h
  cases hr : env.complete (finalRequest msgs) with
  | error e => rw [hr] at h; simp at h
  | ok final_completion =>
    rw [hr] at h
    dsimp only at h
    obtain ⟨j, hj, hv⟩ := parseAndValidate_ok env final_completion.content a h
    exact ⟨final_completion, j, rfl, hj, hv⟩

/-- A successful direct step exhibits a completion response whose
content parsed and validated to the returned answer. -/
theorem directStep_ok (env : Env) (msgs : List Message) (a : HandbookAnswer)
    (h : directStep env msgs = Except.ok a) :
    ∃ r j, env.complete (directRequest msgs) = Except.ok r ∧
      env.parseJson r.content = some j ∧ HandbookAnswer.model_validate j = some a := by
  unfold directStep at h
  cases hr : env.complete (directRequest msgs) with
  | error e => rw [hr] at h; simp at h
  | ok direct_completion =>
    rw [hr] at h
    dsimp only at h
    obtain ⟨j, hj, hv⟩ := parseAndValidate_ok env direct_completion.content a h
    exact ⟨direct_completion, j, rfl, hj, hv⟩

/-!
Claim theorems.
-/

/-- Claim C9: the result of `search_handbook` does not depend on its
query argument — for any two query strings and the same state of the
backing handbook file, the output is identical (the full file content,
or the same error string). -/
theorem claim_C9_query_independent (fs : FileState) (q1 q2 : String) :
    search_handbook fs q1 = search_handbook fs q2 := by
  cases fs <;> rfl

/-- Claim C8: every completion request `ask_agent` issues (initial,
final tool-branch, and direct no-tool branch) carries its system
instruction in the separate `system_prompt` keyword parameter, and its
messages list contains no system-role entry. -/
theorem claim_C8_system_prompt_separate (env : Env) (q : String) (req : CompletionRequest)
    (h : req ∈ (ask_agent env q).2) :
    req.system_prompt.isSome = true ∧ ∀ m ∈ req.messages, Message.isSystemRole m = false := by
  cases hc : env.complete (initialRequest [Message.user q]) with
  | error e =>
    rw [ask_agent_upstream env q e hc] at h
    simp only [List.mem_singleton] at h
    subst h
    refine ⟨rfl, ?_⟩
    intro m hm
    simp only [initialRequest, List.mem_singleton] at hm
    subst hm
    rfl
  | ok resp =>
    cases htc : resp.tool_calls with
    | nil =>
      rw [ask_agent_direct env q resp hc htc] at h
      simp only [List.mem_cons, List.mem_singleton, List.not_mem_nil, or_false] at h
      rcases h with h | h <;> subst h
      · refine ⟨rfl, ?_⟩
        intro m hm
        simp only [initialRequest, List.mem_singleton] at hm
        subst hm
        rfl
      · refine ⟨rfl, ?_⟩
        intro m hm
        simp only [directRequest, List.mem_singleton] at hm
        subst hm
        rfl
    | cons tc rest =>
      cases hp : processToolCalls env (tc :: rest) with
      | error e =>
        rw [ask_agent_tool_error env q resp tc rest e hc htc hp] at h
        simp only [List.mem_singleton] at h
        subst h
        refine ⟨rfl, ?_⟩
        intro m hm
        simp only [initialRequest, List.mem_singleton] at hm
        subst hm
        rfl
      | ok ms =>
        rw [ask_agent_tool env q resp tc rest ms hc htc hp] at h
        simp only [List.mem_cons, List.mem_singleton, List.not_mem_nil, or_false] at h
        rcases h with h | h <;> subst h
        · refine ⟨rfl, ?_⟩
          intro m hm
          simp only [initialRequest, List.mem_singleton] at hm
          subst hm
          rfl
        · refine ⟨rfl, ?_⟩
          intro m hm
          simp only [finalRequest] at hm
          rcases List.mem_cons.mp hm with h1 | hm2
          · subst h1; rfl
          rcases List.mem_cons.mp hm2 with h2 | hm3
          · subst h2; rfl
          · exact processToolCalls_no_system env (tc :: rest) ms hp m hm3

/-- Witness for claim C8 at the concrete no-tool environment and its
initial request. -/
theorem claim_C8_witness :
    initialRequest [Message.user ("q")] ∈ (ask_agent envDirect ("q")).2 ∧
    ((initialRequest [Message.user ("q")]).system_prompt.isSome = true ∧
      ∀ m ∈ (initialRequest [Message.user ("q")]).messages, Message.isSystemRole m = false) := by
  have hmem : initialRequest [Message.user ("q")] ∈ (ask_agent envDirect ("q")).2 :=
    List.mem_cons_self _ _
  exact ⟨hmem, claim_C8_system_prompt_separate envDirect ("q") _ hmem⟩

/-- Claim C3: a `HandbookAnswer` is returned only when some completion
response's content passed both `json.loads` and full schema validation;
any parse or validation failure makes `ask_agent` raise instead of
returning a partially-populated answer. -/
theorem claim_C3_never_partial (env : Env) (q : String) (a : HandbookAnswer)
    (hok : (ask_agent env q).1 = Except.ok a) :
    ∃ req r j, req ∈ (ask_agent env q).2 ∧ env.complete req = Except.ok r ∧
      env.parseJson r.content = some j ∧ HandbookAnswer.model_validate j = some a := by
  cases hc : env.complete (initialRequest [Message.user q]) with
  | error e =>
    rw [ask_agent_upstream env q e hc] at hok
    simp at hok
  | ok resp =>
    cases htc : resp.tool_calls with
    | nil =>
      rw [ask_agent_direct env q resp hc htc] at hok ⊢
      obtain ⟨r, j, hr, hj, hv⟩ := directStep_ok env [Message.user q] a hok
      exact ⟨directRequest [Message.user q], r, j, by simp, hr, hj, hv⟩
    | cons tc rest =>
      cases hp : processToolCalls env (tc :: rest) with
      | error e =>
        rw [ask_agent_tool_error env q resp tc rest e hc htc hp] at hok
        simp at hok
      | ok ms =>
        rw [ask_agent_tool env q resp tc rest ms hc htc hp] at hok ⊢
        obtain ⟨r, j, hr, hj, hv⟩ := finalStep_ok env _ a hok
        exact ⟨finalRequest
          (Message.user q :: Message.assistant resp.content (tc :: rest) :: ms), r, j,
          by simp, hr, hj, hv⟩

/-- Witness for claim C3 at the concrete no-tool environment. -/
theorem claim_C3_witness :
    (ask_agent envDirect ("What can you do?")).1 = Except.ok answerOneCit ∧
    (∃ req r j, req ∈ (ask_agent envDirect ("What can you do?")).2 ∧
      envDirect.complete req = Except.ok r ∧
      envDirect.parseJson r.content = some j ∧
      HandbookAnswer.model_validate j = some answerOneCit) :=
  ⟨rfl, claim_C3_never_partial envDirect ("What can you do?") answerOneCit rfl⟩

/-- Concrete initial response of the tool-branch environments. -/
def respToolX : CompletionResponse := { content := "", tool_calls := [toolCallX] }

/-- Concrete initial response of `envUnknownBad`. -/
def respUnknownBad : CompletionResponse := { content := "", tool_calls := [toolCallUnknownBad] }

/-- Concrete initial response of `envUnknownGood`. -/
def respUnknownGood : CompletionResponse := { content := "", tool_calls := [toolCallUnknown] }

/-- Tool-result messages produced in `envToolOk` and `envToolNoCit`. -/
def msToolOk : List Message :=
  [Message.tool ("call_1") ("search_handbook") ("HANDBOOK CONTENT")]

/-- Claim C4: in the tool branch, the conversation sent in the final
completion request is the user query, the original assistant
tool-invocation message, then exactly one tool-role result message per
tool-invocation request issued by the model, each tagged with the
identifier (and name) of the invocation it answers. -/
theorem claim_C4_one_result_per_invocation (env : Env) (q : String)
    (resp : CompletionResponse) (tc : ToolCall) (rest : List ToolCall) (ms : List Message)
    (hc : env.complete (initialRequest [Message.user q]) = Except.ok resp)
    (htc : resp.tool_calls = tc :: rest)
    (hp : processToolCalls env (tc :: rest) = Except.ok ms) :
    (ask_agent env q).2 =
      [initialRequest [Message.user q],
       finalRequest (Message.user q :: Message.assistant resp.content (tc :: rest) :: ms)] ∧
    ms.length = (tc :: rest).length ∧
    ∀ (i : Nat) (h1 : i < (tc :: rest).length) (h2 : i < ms.length),
      ∃ text, ms.get ⟨i, h2⟩ =
        Message.tool ((tc :: rest).get ⟨i, h1⟩).id
          ((tc :: rest).get ⟨i, h1⟩).function.name text := by
  refine ⟨by rw [ask_agent_tool env q resp tc rest ms hc htc hp],
    processToolCalls_length env _ _ hp, ?_⟩
  intro i h1 h2
  exact runToolCall_ok_shape env _ _ (processToolCalls_get env _ _ hp i h1 h2)

/-- Witness for claim C4 at the concrete tool-branch environment. -/
theorem claim_C4_witness :
    envToolOk.complete (initialRequest [Message.user ("q")]) = Except.ok respToolX ∧
    respToolX.tool_calls = toolCallX :: [] ∧
    processToolCalls envToolOk (toolCallX :: []) = Except.ok msToolOk ∧
    ((ask_agent envToolOk ("q")).2 =
      [initialRequest [Message.user ("q")],
       finalRequest (Message.user ("q") ::
         Message.assistant respToolX.content (toolCallX :: []) :: msToolOk)] ∧
     msToolOk.length = (toolCallX :: []).length ∧
     ∀ (i : Nat) (h1 : i < (toolCallX :: []).length) (h2 : i < msToolOk.length),
       ∃ text, msToolOk.get ⟨i, h2⟩ =
         Message.tool ((toolCallX :: []).get ⟨i, h1⟩).id
           ((toolCallX :: []).get ⟨i, h1⟩).function.name text) :=
  ⟨rfl, rfl, rfl,
    claim_C4_one_result_per_invocation envToolOk ("q") respToolX toolCallX [] msToolOk rfl rfl rfl⟩

/-- Claim C10: the model-supplied arguments of a tool invocation are
JSON-parsed before the registry membership check, so an invocation
whose arguments string is not valid JSON raises the JSON parse error —
never `UnknownToolError` — even when the named tool is unregistered;
no final completion request is issued. -/
theorem claim_C10_parse_before_registry (env : Env) (q : String)
    (resp : CompletionResponse) (tc : ToolCall) (rest : List ToolCall)
    (hc : env.complete (initialRequest [Message.user q]) = Except.ok resp)
    (htc : resp.tool_calls = tc :: rest)
    (hbad : env.parseJson tc.function.arguments = none)
    (hunk : AVAILABLE_FUNCTIONS env.fs tc.function.name = none) :
    (ask_agent env q).1 = Except.error AgentError.jsonDecode ∧
    (ask_agent env q).1 ≠ Except.error (AgentError.unknownTool tc.function.name) ∧
    (ask_agent env q).2 = [initialRequest [Message.user q]] := by
  have hp : processToolCalls env (tc :: rest) = Except.error AgentError.jsonDecode := by
    unfold processToolCalls
    rw [runToolCall_badArgs env tc hbad]
  rw [ask_agent_tool_error env q resp tc rest _ hc htc hp]
  exact ⟨rfl, by simp, rfl⟩

/-- Witness for claim C10 at the concrete environment whose model
invokes an unregistered tool with unparseable arguments. -/
theorem claim_C10_witness :
    envUnknownBad.complete (initialRequest [Message.user ("q")]) = Except.ok respUnknownBad ∧
    respUnknownBad.tool_calls = toolCallUnknownBad :: [] ∧
    envUnknownBad.parseJson toolCallUnknownBad.function.arguments = none ∧
    AVAILABLE_FUNCTIONS envUnknownBad.fs toolCallUnknownBad.function.name = none ∧
    ((ask_agent envUnknownBad ("q")).1 = Except.error AgentError.jsonDecode ∧
     (ask_agent envUnknownBad ("q")).1 ≠
       Except.error (AgentError.unknownTool toolCallUnknownBad.function.name) ∧
     (ask_agent envUnknownBad ("q")).2 = [initialRequest [Message.user ("q")]]) :=
  ⟨rfl, rfl, rfl, rfl,
    claim_C10_parse_before_registry envUnknownBad ("q") respUnknownBad toolCallUnknownBad []
      rfl rfl rfl rfl⟩

/-- Counterexample to claim C2 as stated: a model response carrying an
invocation of an unregistered tool whose arguments string is not valid
JSON makes `ask_agent` raise the JSON decode error, not
`UnknownToolError`. -/
theorem claim_C2_counterexample :
    envUnknownBad.complete (initialRequest [Message.user ("q")]) = Except.ok respUnknownBad ∧
    AVAILABLE_FUNCTIONS envUnknownBad.fs toolCallUnknownBad.function.name = none ∧
    (ask_agent envUnknownBad ("q")).1 = Except.error AgentError.jsonDecode ∧
    (ask_agent envUnknownBad ("q")).1 ≠
      Except.error (AgentError.unknownTool toolCallUnknownBad.function.name) := by
  refine ⟨rfl, rfl, rfl, ?_⟩
  rw [show (ask_agent envUnknownBad ("q")).1 = Except.error AgentError.jsonDecode from rfl]
  simp

/-- Claim C2 (amended): a model response containing an invocation of
an unregistered tool always makes `ask_agent` raise an error and never
issue the final schema-constrained completion request; the error is
`UnknownToolError` in particular when the unregistered invocation is
the first in the list and its arguments string parses as JSON. -/
theorem claim_C2_unknown_tool_aborts (env : Env) (q : String)
    (resp : CompletionResponse) (tc : ToolCall)
    (hc : env.complete (initialRequest [Message.user q]) = Except.ok resp)
    (hmem : tc ∈ resp.tool_calls)
    (hunk : AVAILABLE_FUNCTIONS env.fs tc.function.name = none) :
    (∃ e, (ask_agent env q).1 = Except.error e) ∧
    (ask_agent env q).2 = [initialRequest [Message.user q]] ∧
    (∀ rest args, resp.tool_calls = tc :: rest →
      env.parseJson tc.function.arguments = some args →
      (ask_agent env q).1 = Except.error (AgentError.unknownTool tc.function.name)) := by
  cases htc : resp.tool_calls with
  | nil =>
    rw [htc] at hmem
    exact absurd hmem (by simp)
  | cons hd tl =>
    rw [htc] at hmem
    cases hp : processToolCalls env (hd :: tl) with
    | ok ms => exact absurd hp (processToolCalls_mem_unknown env (hd :: tl) tc hmem hunk ms)
    | error e =>
      rw [ask_agent_tool_error env q resp hd tl e hc htc hp]
      refine ⟨⟨e, rfl⟩, rfl, ?_⟩
      intro rest args hrest hargs
      injection hrest with h1 h2
      subst h1
      subst h2
      have hfirst : processToolCalls env (hd :: tl) =
          Except.error (AgentError.unknownTool hd.function.name) := by
        unfold processToolCalls
        rw [runToolCall_unknown env hd args hargs hunk]
      rw [hp] at hfirst
      injection hfirst with he
      rw [he]

/-- Witness for claim C2 at the concrete environment whose model
invokes an unregistered tool with parseable arguments. -/
theorem claim_C2_witness :
    envUnknownGood.complete (initialRequest [Message.user ("q")]) = Except.ok respUnknownGood ∧
    toolCallUnknown ∈ respUnknownGood.tool_calls ∧
    AVAILABLE_FUNCTIONS envUnknownGood.fs toolCallUnknown.function.name = none ∧
    ((∃ e, (ask_agent envUnknownGood ("q")).1 = Except.error e) ∧
     (ask_agent envUnknownGood ("q")).2 = [initialRequest [Message.user ("q")]] ∧
     (∀ rest args, respUnknownGood.tool_calls = toolCallUnknown :: rest →
       envUnknownGood.parseJson toolCallUnknown.function.arguments = some args →
       (ask_agent envUnknownGood ("q")).1 =
         Except.error (AgentError.unknownTool toolCallUnknown.function.name))) := by
  have hmem : toolCallUnknown ∈ respUnknownGood.tool_calls := List.mem_cons_self _ _
  exact ⟨rfl, hmem, rfl,
    claim_C2_unknown_tool_aborts envUnknownGood ("q") respUnknownGood toolCallUnknown
      rfl hmem rfl⟩

/-- Counterexample to claim C1 as stated: in `envDirect` no tool is
invoked (the initial response carries no tool calls, so the no-tool
branch runs), yet the returned `StructuredAnswer` has a non-empty
citations list — the code only instructs emptiness via the prompt and
never checks it. -/
theorem claim_C1_counterexample :
    envDirect.complete (initialRequest [Message.user ("What can you do?")]) =
      Except.ok { content := "", tool_calls := [] } ∧
    (ask_agent envDirect ("What can you do?")).1 = Except.ok answerOneCit ∧
    answerOneCit.citations ≠ [] := by
  refine ⟨rfl, rfl, ?_⟩
  simp [answerOneCit]

/-- Claim C1 (amended): in the no-tool branch the direct completion
request instructs the model — via its system prompt — to return an
empty citations list, but emptiness is not enforced: the returned
citations are exactly those of the schema-validated model output. -/
theorem claim_C1_no_tool_instructed_only (env : Env) (q : String) (resp : CompletionResponse)
    (hc : env.complete (initialRequest [Message.user q]) = Except.ok resp)
    (htc : resp.tool_calls = []) :
    (ask_agent env q).2 = [initialRequest [Message.user q], directRequest [Message.user q]] ∧
    (directRequest [Message.user q]).system_prompt = some DIRECT_SYSTEM_PROMPT ∧
    ∀ a, (ask_agent env q).1 = Except.ok a →
      ∃ r j, env.complete (directRequest [Message.user q]) = Except.ok r ∧
        env.parseJson r.content = some j ∧ HandbookAnswer.model_validate j = some a := by
  rw [ask_agent_direct env q resp hc htc]
  exact ⟨rfl, rfl, fun a h => directStep_ok env _ a h⟩

/-- Witness for the amended claim C1 at the concrete no-tool
environment. -/
theorem claim_C1_witness :
    envDirect.complete (initialRequest [Message.user ("w")]) =
      Except.ok { content := "", tool_calls := [] } ∧
    ({ content := "", tool_calls := [] } : CompletionResponse).tool_calls = [] ∧
    ((ask_agent envDirect ("w")).2 =
      [initialRequest [Message.user ("w")], directRequest [Message.user ("w")]] ∧
     (directRequest [Message.user ("w")]).system_prompt = some DIRECT_SYSTEM_PROMPT ∧
     ∀ a, (ask_agent envDirect ("w")).1 = Except.ok a →
       ∃ r j, envDirect.complete (directRequest [Message.user ("w")]) = Except.ok r ∧
         envDirect.parseJson r.content = some j ∧
         HandbookAnswer.model_validate j = some a) :=
  ⟨rfl, rfl,
    claim_C1_no_tool_instructed_only envDirect ("w") { content := "", tool_calls := [] } rfl rfl⟩

/-- Reduction of `ask_agent` for a single well-formed invocation of the
registered lookup tool: the tool never raises, its (possibly error)
string becomes the tool-result content verbatim, and the final
schema-constrained completion request is issued. -/
theorem ask_agent_single_search (env : Env) (q : String) (resp : CompletionResponse)
    (tc : ToolCall) (s : String)
    (hc : env.complete (initialRequest [Message.user q]) = Except.ok resp)
    (htc : resp.tool_calls = [tc])
    (hname : tc.function.name = "search_handbook")
    (hargs : env.parseJson tc.function.arguments = some (Json.obj [("query", Json.str s)])) :
    ask_agent env q =
      (finalStep env (Message.user q :: Message.assistant resp.content [tc] ::
         [Message.tool tc.id tc.function.name (search_handbook env.fs s)]),
       [initialRequest [Message.user q],
        finalRequest (Message.user q :: Message.assistant resp.content [tc] ::
          [Message.tool tc.id tc.function.name (search_handbook env.fs s)])]) := by
  have hrun : runToolCall env tc =
      Except.ok (Message.tool tc.id tc.function.name (search_handbook env.fs s)) := by
    unfold runToolCall
    rw [hargs, hname]
    simp [AVAILABLE_FUNCTIONS, kwargsQuery, Json.asString]
  have hp : processToolCalls env [tc] =
      Except.ok [Message.tool tc.id tc.function.name (search_handbook env.fs s)] := by
    unfold processToolCalls
    rw [hrun]
    rfl
  exact ask_agent_tool env q resp tc [] _ hc htc hp

/-- Claim C5: when the lookup capability is invoked (well-formed
single invocation of `search_handbook`), it never raises — its return
string, which is an error string when the backing file is absent or
unreadable, is appended verbatim as the content of the tool-result
message, and `ask_agent` still issues the final completion request
(the overall outcome is exactly that of the final step, so a lookup
failure alone never raises). -/
theorem claim_C5_lookup_error_proceeds (env : Env) (q : String) (resp : CompletionResponse)
    (tc : ToolCall) (s : String)
    (hc : env.complete (initialRequest [Message.user q]) = Except.ok resp)
    (htc : resp.tool_calls = [tc])
    (hname : tc.function.name = "search_handbook")
    (hargs : env.parseJson tc.function.arguments = some (Json.obj [("query", Json.str s)])) :
    (ask_agent env q).2 =
      [initialRequest [Message.user q],
       finalRequest (Message.user q :: Message.assistant resp.content [tc] ::
         [Message.tool tc.id tc.function.name (search_handbook env.fs s)])] ∧
    (ask_agent env q).1 =
      finalStep env (Message.user q :: Message.assistant resp.content [tc] ::
        [Message.tool tc.id tc.function.name (search_handbook env.fs s)]) ∧
    (env.fs = FileState.absent →
      search_handbook env.fs s = "ERROR: Handbook file not found at expected path.") ∧
    (∀ em, env.fs = FileState.unreadable em →
      search_handbook env.fs s = "ERROR: Could not read handbook file: " ++ em) := by
  rw [ask_agent_single_search env q resp tc s hc htc hname hargs]
  refine ⟨rfl, rfl, ?_, ?_⟩
  · intro h
    rw [h]
    rfl
  · intro em h
    rw [h]
    rfl

/-- Witness for claim C5 at the tool-branch environment whose backing
handbook file is absent. -/
theorem claim_C5_witness :
    envToolAbsent.complete (initialRequest [Message.user ("q")]) = Except.ok respToolX ∧
    respToolX.tool_calls = [toolCallX] ∧
    toolCallX.function.name = "search_handbook" ∧
    envToolAbsent.parseJson toolCallX.function.arguments =
      some (Json.obj [("query", Json.str ("x"))]) ∧
    ((ask_agent envToolAbsent ("q")).2 =
      [initialRequest [Message.user ("q")],
       finalRequest (Message.user ("q") :: Message.assistant respToolX.content [toolCallX] ::
         [Message.tool toolCallX.id toolCallX.function.name
           (search_handbook envToolAbsent.fs ("x"))])] ∧
     (ask_agent envToolAbsent ("q")).1 =
       finalStep envToolAbsent (Message.user ("q") ::
         Message.assistant respToolX.content [toolCallX] ::
         [Message.tool toolCallX.id toolCallX.function.name
           (search_handbook envToolAbsent.fs ("x"))]) ∧
     (envToolAbsent.fs = FileState.absent →
       search_handbook envToolAbsent.fs ("x") =
         "ERROR: Handbook file not found at expected path.") ∧
     (∀ em, envToolAbsent.fs = FileState.unreadable em →
       search_handbook envToolAbsent.fs ("x") =
         "ERROR: Could not read handbook file: " ++ em)) :=
  ⟨rfl, rfl, rfl, rfl,
    claim_C5_lookup_error_proceeds envToolAbsent ("q") respToolX toolCallX ("x")
      rfl rfl rfl rfl⟩

/-- Counterexample to claim C6 as stated: in `envToolAbsent` the
invoked capability fails (the backing handbook file is missing), the
tool branch runs, and yet `ask_agent` returns a successful
`HandbookAnswer` — no `ToolExecutionError` (indeed no failure outcome
at all) is surfaced to the caller. -/
theorem claim_C6_counterexample :
    envToolAbsent.fs = FileState.absent ∧
    envToolAbsent.complete (initialRequest [Message.user ("q")]) = Except.ok respToolX ∧
    (ask_agent envToolAbsent ("q")).1 = Except.ok answerTwoCits :=
  ⟨rfl, rfl, rfl⟩

/-- Claim C6 (amended): when the invoked capability fails because the
backing handbook file is missing, no `ToolExecutionError` exists or is
raised — the capability's error string becomes the tool-result content
and the outcome of `ask_agent` is determined solely by the final
schema-constrained completion request; no retry or fallback (indeed no
other request) occurs inside the core. -/
theorem claim_C6_no_tool_execution_error (env : Env) (q : String) (resp : CompletionResponse)
    (tc : ToolCall) (s : String)
    (hfs : env.fs = FileState.absent)
    (hc : env.complete (initialRequest [Message.user q]) = Except.ok resp)
    (htc : resp.tool_calls = [tc])
    (hname : tc.function.name = "search_handbook")
    (hargs : env.parseJson tc.function.arguments = some (Json.obj [("query", Json.str s)])) :
    (ask_agent env q).1 =
      finalStep env (Message.user q :: Message.assistant resp.content [tc] ::
        [Message.tool tc.id tc.function.name
          ("ERROR: Handbook file not found at expected path.")]) ∧
    (ask_agent env q).2 =
      [initialRequest [Message.user q],
       finalRequest (Message.user q :: Message.assistant resp.content [tc] ::
         [Message.tool tc.id tc.function.name
           ("ERROR: Handbook file not found at expected path.")])] := by
  have hsearch : search_handbook env.fs s = "ERROR: Handbook file not found at expected path." := by
    rw [hfs]
    rfl
  have hred := ask_agent_single_search env q resp tc s hc htc hname hargs
  rw [hsearch] at hred
  rw [hred]
  exact ⟨rfl, rfl⟩

/-- Witness for the amended claim C6 at the tool-branch environment
whose backing handbook file is absent. -/
theorem claim_C6_witness :
    envToolAbsent.fs = FileState.absent ∧
    envToolAbsent.complete (initialRequest [Message.user ("q")]) = Except.ok respToolX ∧
    respToolX.tool_calls = [toolCallX] ∧
    toolCallX.function.name = "search_handbook" ∧
    envToolAbsent.parseJson toolCallX.function.arguments =
      some (Json.obj [("query", Json.str ("x"))]) ∧
    ((ask_agent envToolAbsent ("q")).1 =
      finalStep envToolAbsent (Message.user ("q") ::
        Message.assistant respToolX.content [toolCallX] ::
        [Message.tool toolCallX.id toolCallX.function.name
          ("ERROR: Handbook file not found at expected path.")]) ∧
     (ask_agent envToolAbsent ("q")).2 =
       [initialRequest [Message.user ("q")],
        finalRequest (Message.user ("q") :: Message.assistant respToolX.content [toolCallX] ::
          [Message.tool toolCallX.id toolCallX.function.name
            ("ERROR: Handbook file not found at expected path.")])]) :=
  ⟨rfl, rfl, rfl, rfl, rfl,
    claim_C6_no_tool_execution_error envToolAbsent ("q") respToolX toolCallX ("x")
      rfl rfl rfl rfl rfl⟩

/-- Counterexample to claim C7 as stated: in `envToolNoCit` the tool
branch runs with a readable, non-empty handbook, yet the returned
answer has zero citations — the 2-to-4-citation range is only prompt
guidance, not enforced by the code. -/
theorem claim_C7_counterexample :
    envToolNoCit.fs = FileState.readable ("HANDBOOK CONTENT") ∧
    ("HANDBOOK CONTENT" : String) ≠ "" ∧
    envToolNoCit.complete (initialRequest [Message.user ("q")]) = Except.ok respToolX ∧
    (ask_agent envToolNoCit ("q")).1 = Except.ok answerNoCits ∧
    ¬(2 ≤ answerNoCits.citations.length ∧ answerNoCits.citations.length ≤ 4) := by
  refine ⟨rfl, ?_, rfl, rfl, ?_⟩
  · simp
  · simp [answerNoCits]

/-- Claim C7 (amended): in the tool branch the final completion
request's system prompt carries the instruction to cite 2-4 supporting
excerpts with section identifiers, but the code enforces only the
schema: the returned answer is exactly the validated model output,
whose citation count and field contents are unconstrained. -/
theorem claim_C7_citations_not_enforced (env : Env) (q : String)
    (resp : CompletionResponse) (tc : ToolCall) (rest : List ToolCall) (ms : List Message)
    (hc : env.complete (initialRequest [Message.user q]) = Except.ok resp)
    (htc : resp.tool_calls = tc :: rest)
    (hp : processToolCalls env (tc :: rest) = Except.ok ms) :
    (finalRequest (Message.user q :: Message.assistant resp.content (tc :: rest) :: ms)).system_prompt =
      some FINAL_SYSTEM_PROMPT ∧
    (ask_agent env q).1 =
      finalStep env (Message.user q :: Message.assistant resp.content (tc :: rest) :: ms) ∧
    ∀ a, (ask_agent env q).1 = Except.ok a →
      ∃ r j, env.complete
          (finalRequest (Message.user q :: Message.assistant resp.content (tc :: rest) :: ms)) =
          Except.ok r ∧
        env.parseJson r.content = some j ∧ HandbookAnswer.model_validate j = some a := by
  rw [ask_agent_tool env q resp tc rest ms hc htc hp]
  exact ⟨rfl, rfl, fun a h => finalStep_ok env _ a h⟩

/-- Witness for the amended claim C7 at the tool-branch environment
whose final completion reports no citations. -/
theorem claim_C7_witness :
    envToolNoCit.complete (initialRequest [Message.user ("q")]) = Except.ok respToolX ∧
    respToolX.tool_calls = toolCallX :: [] ∧
    processToolCalls envToolNoCit (toolCallX :: []) = Except.ok msToolOk ∧
    ((finalRequest (Message.user ("q") ::
        Message.assistant respToolX.content (toolCallX :: []) :: msToolOk)).system_prompt =
      some FINAL_SYSTEM_PROMPT ∧
     (ask_agent envToolNoCit ("q")).1 =
       finalStep envToolNoCit (Message.user ("q") ::
         Message.assistant respToolX.content (toolCallX :: []) :: msToolOk) ∧
     ∀ a, (ask_agent envToolNoCit ("q")).1 = Except.ok a →
       ∃ r j, envToolNoCit.complete
           (finalRequest (Message.user ("q") ::
             Message.assistant respToolX.content (toolCallX :: []) :: msToolOk)) =
           Except.ok r ∧
         envToolNoCit.parseJson r.content = some j ∧
         HandbookAnswer.model_validate j = some a) :=
  ⟨rfl, rfl, rfl,
    claim_C7_citations_not_enforced envToolNoCit ("q") respToolX toolCallX [] msToolOk
      rfl rfl rfl⟩
